import Mathlib

/-!
Verification of the meltano dbt runner and related services.

Shallow embedding of `src/meltano/core/runner/dbt.py`,
`src/meltano/core/plugin/file.py` and
`src/meltano/core/transform_add_service.py`, together with proofs about the
staged dbt invocation sequence, the subprocess-output barrier, file-plugin
writes and the transform `packages.yml` updater.
-/

/-! Data model for the dbt runner (`src/meltano/core/runner/dbt.py`). -/

/-- Plugin categories, mirroring `meltano.core.plugin.PluginType` (only the
values relevant to the runner are listed; `DbtRunner.invoke` uses
`PluginType.TRANSFORMERS`). -/
inductive PluginType where
  | extractors
  | loaders
  | transformers
deriving DecidableEq, Repr

/-- Model of `RunnerError(message, exitcodes)` as constructed by `DbtRunner.invoke`:
a message string plus an exit-code mapping from plugin type to exit code
(`{PluginType.TRANSFORMERS: exitcode}`); `[]` models the absent mapping of
the one-argument form `RunnerError(f"Cannot start dbt: {err}")`. -/
structure RunnerError where
  message : String
  exitcodes : List (PluginType × Int)
deriving DecidableEq, Repr

/-- Which standard stream a captured output line came from. -/
inductive StreamId where
  | stdout
  | stderr
deriving DecidableEq, Repr

/-- The observable behavior of a child process that was started successfully:
the lines it writes to stdout and stderr, and its exit code
(`handle.returncode`; an `int` in Python, possibly negative). -/
structure ProcessBehavior where
  stdoutLines : List String
  stderrLines : List String
  exitcode : Int
deriving DecidableEq, Repr

/-- Result of attempting to start the dbt subprocess
(`dbt.invoke_async(cmd, *args, ...)`): either a started process with its
behavior, or a launch failure carrying the underlying error's text
(the `err` of `except Exception as err`). -/
inductive LaunchResult where
  | ok (behavior : ProcessBehavior)
  | failure (err : String)
deriving DecidableEq, Repr

/-- The environment's behavior for dbt invocations: for each `(cmd, args)`
pair passed to `dbt.invoke_async`, what happens when the runner tries to
start that process.  This is the interface seam to the `PluginInvoker`
machinery, which is outside the runner. -/
def DbtOracle : Type := String → List String → LaunchResult

/-- Observable events of one `DbtRunner.run` call, in temporal order:
`invokeStart cmd args` records a call to `dbt.invoke_async` (a stage being
constructed and started), `sinkLine` records a captured output line being
forwarded to the log sink by `capture_subprocess_output`, and
`prepareAcquire` / `prepareRelease` record entry to and exit from the
`with dbt.prepared(self.context.session)` block. -/
inductive Event where
  | invokeStart (cmd : String) (args : List String)
  | sinkLine (stream : StreamId) (line : String)
  | prepareAcquire
  | prepareRelease
deriving DecidableEq, Repr

/-- The sink events produced by draining one process's stdout and stderr
(`capture_subprocess_output(handle.stdout, log)` and the same for stderr).
The two drains run concurrently; the claims proved below do not depend on
the interleaving, so one representative order is recorded. -/
def sinkEvents (b : ProcessBehavior) : List Event :=
  b.stdoutLines.map (Event.sinkLine StreamId.stdout)
    ++ b.stderrLines.map (Event.sinkLine StreamId.stderr)

/-- Embedding of `DbtRunner.invoke(dbt, cmd, *args, log=...)`: try to start the process;
on launch failure raise `RunnerError("Cannot start dbt: " + err)`; otherwise
drain both streams and await termination, then raise
`RunnerError("`dbt " + cmd + "` failed", {TRANSFORMERS: exitcode})` when the
exit code is non-zero (`if exitcode:`), and return normally when it is zero.
The second component is the trace of events the call produces. -/
def invoke (o : DbtOracle) (cmd : String) (args : List String) :
    Except RunnerError Unit × List Event :=
  match o cmd args with
  | LaunchResult.failure err =>
      (Except.error ⟨"Cannot start dbt: " ++ err, []⟩, [Event.invokeStart cmd args])
  | LaunchResult.ok b =>
      if b.exitcode = 0 then
        (Except.ok (), Event.invokeStart cmd args :: sinkEvents b)
      else
        (Except.error ⟨"`dbt " ++ cmd ++ "` failed",
                       [(PluginType.transformers, b.exitcode)]⟩,
         Event.invokeStart cmd args :: sinkEvents b)

/-- The part of `ELTContext` that `DbtRunner.run` reads: the dry-run flag and
the stringified `models` config of the transformer plugin
(`str(self.plugin_context.get_config("models"))`). -/
structure ELTContext where
  dryRun : Bool
  modelsConfig : String
deriving DecidableEq, Repr

/-- The stage sequence `DbtRunner.run` executes, with each stage's command
and extra arguments: `clean`, `deps`, then `compile` (dry run) or `run` with
`--models <models config>`. -/
def stages (ctx : ELTContext) : List (String × List String) :=
  [("clean", []), ("deps", []),
   ((if ctx.dryRun then "compile" else "run"), ["--models", ctx.modelsConfig])]

/-- Command name of stage `k` (0-indexed) of `DbtRunner.run`. -/
def stageName (ctx : ELTContext) (k : Nat) : String :=
  ((stages ctx).getD k ("", [])).1

/-- Extra arguments of stage `k` (0-indexed) of `DbtRunner.run`. -/
def stageArgs (ctx : ELTContext) (k : Nat) : List String :=
  ((stages ctx).getD k ("", [])).2

/-- The body of the `with dbt.prepared(...)` block of `DbtRunner.run`:
`await self.invoke(dbt, "clean")`, then `"deps"`, then
`"compile"`/`"run" --models <models>`, each awaited in sequence, and a raised
`RunnerError` aborting the rest of the block. -/
def runBody (ctx : ELTContext) (o : DbtOracle) :
    Except RunnerError Unit × List Event :=
  match invoke o "clean" [] with
  | (Except.error e, ev1) => (Except.error e, ev1)
  | (Except.ok _, ev1) =>
    match invoke o "deps" [] with
    | (Except.error e, ev2) => (Except.error e, ev1 ++ ev2)
    | (Except.ok _, ev2) =>
      match invoke o (if ctx.dryRun then "compile" else "run")
          ["--models", ctx.modelsConfig] with
      | (r3, ev3) => (r3, ev1 ++ ev2 ++ ev3)

/-- Embedding of `DbtRunner.run(log=...)`: enter `with dbt.prepared(self.context.session)`,
execute the three stages, and leave the `with` block on every exit path
(normal return or raised error).  The `prepared` context manager itself is
provided by `PluginInvoker`, outside this file's sources; modelled from the
spec: acquisition on entry and guaranteed release on exit, recorded as
`prepareAcquire` / `prepareRelease` events bracketing the block's body. -/
def run (ctx : ELTContext) (o : DbtOracle) :
    Except RunnerError Unit × List Event :=
  ((runBody ctx o).1,
   Event.prepareAcquire :: ((runBody ctx o).2 ++ [Event.prepareRelease]))

/-- The stages that a trace constructed and started, in order: the
`(cmd, args)` of its `invokeStart` events. -/
def invokeStarts : List Event → List (String × List String)
  | [] => []
  | Event.invokeStart c a :: es => (c, a) :: invokeStarts es
  | Event.sinkLine _ _ :: es => invokeStarts es
  | Event.prepareAcquire :: es => invokeStarts es
  | Event.prepareRelease :: es => invokeStarts es

@[simp] theorem invokeStarts_nil : invokeStarts [] = [] := rfl

@[simp] theorem invokeStarts_invokeStart (c : String) (a : List String)
    (es : List Event) :
    invokeStarts (Event.invokeStart c a :: es) = (c, a) :: invokeStarts es := rfl

@[simp] theorem invokeStarts_sinkLine (s : StreamId) (l : String)
    (es : List Event) :
    invokeStarts (Event.sinkLine s l :: es) = invokeStarts es := rfl

@[simp] theorem invokeStarts_prepareAcquire (es : List Event) :
    invokeStarts (Event.prepareAcquire :: es) = invokeStarts es := rfl

@[simp] theorem invokeStarts_prepareRelease (es : List Event) :
    invokeStarts (Event.prepareRelease :: es) = invokeStarts es := rfl

@[simp] theorem invokeStarts_append (es fs : List Event) :
    invokeStarts (es ++ fs) = invokeStarts es ++ invokeStarts fs := by
  induction es with
  | nil => rfl
  | cons e es ih => cases e <;> simp [ih]

@[simp] theorem invokeStarts_sinkEvents (b : ProcessBehavior) :
    invokeStarts (sinkEvents b) = [] := by
  unfold sinkEvents
  rw [invokeStarts_append]
  have h1 : ∀ l : List String,
      invokeStarts (l.map (Event.sinkLine StreamId.stdout)) = [] := by
    intro l; induction l with
    | nil => rfl
    | cons x xs ih => simp [ih]
  have h2 : ∀ l : List String,
      invokeStarts (l.map (Event.sinkLine StreamId.stderr)) = [] := by
    intro l; induction l with
    | nil => rfl
    | cons x xs ih => simp [ih]
  simp [h1, h2]

/-! The output-drain barrier of `DbtRunner.invoke` (concurrency view).

`invoke` awaits `asyncio.wait([capture_subprocess_output(handle.stdout, log),
capture_subprocess_output(handle.stderr, log), handle.wait()],
return_when=asyncio.ALL_COMPLETED)` and only then reads
`handle.returncode`.  The transition system below embeds that coordination:
the three sub-tasks may finish in any order and any interleaving, and the
`report` transition — the runner proceeding past the `await` to read the
exit code and make the outcome visible — is enabled exactly when all three
are done (asyncio's documented `ALL_COMPLETED` semantics). -/

/-- State of one `invoke` call's coordination: which of the three sub-tasks
(stdout drain, stderr drain, process wait) have completed, and whether the
exit outcome has been made visible to the caller. -/
structure SupState where
  stdoutDone : Bool
  stderrDone : Bool
  waitDone : Bool
  reported : Bool
deriving DecidableEq, Repr

/-- Initial state: nothing has completed, nothing is reported. -/
def SupState.init : SupState :=
  ⟨false, false, false, false⟩

/-- One scheduler step: any unfinished sub-task may finish at any time, in
any order; the outcome is reported only when the `ALL_COMPLETED` barrier is
open, i.e. all three sub-tasks are done. -/
inductive SupStep : SupState → SupState → Prop where
  | finishStdout (s : SupState) : SupStep s { s with stdoutDone := true }
  | finishStderr (s : SupState) : SupStep s { s with stderrDone := true }
  | finishWait (s : SupState) : SupStep s { s with waitDone := true }
  | report (s : SupState) (h1 : s.stdoutDone = true) (h2 : s.stderrDone = true)
      (h3 : s.waitDone = true) : SupStep s { s with reported := true }

/-- States reachable from the initial state under any interleaving. -/
def SupReachable (s : SupState) : Prop :=
  Relation.ReflTransGen SupStep SupState.init s

/-! The `DbtRunner` object view (`src/meltano/core/runner/dbt.py`). -/

/-- The `DbtRunner` object: its only attribute is the `ELTContext` stored by
`__init__` (`self.context = elt_context`). -/
structure DbtRunner where
  context : ELTContext
deriving DecidableEq, Repr

/-- The `run` method viewed as a state transformer on the runner object:
the method body reads `self.context` and assigns to no attribute of `self`
and to no global, so the object after the call is the object before it. -/
def DbtRunner.runM (r : DbtRunner) (o : DbtOracle) :
    (Except RunnerError Unit × List Event) × DbtRunner :=
  (run r.context o, r)

/-! Embedding of `FilePlugin.write_file` (`src/meltano/core/plugin/file.py`). -/

/-- The project-relative filesystem: each relative path maps to the contents
of the file there, or `none` when no file exists at that path.  Directory
creation (`project_path.parent.mkdir(parents=True, exist_ok=True)`) is
implicit in this view. -/
def FS : Type := String → Option String

/-- Embedding of `FilePlugin.write_file(project, relative_path, content)`: if the file
exists with exactly `content`, return `False` and touch nothing; otherwise
create parent directories, write `content`, and return `True`.  Returns the
flag and the resulting filesystem. -/
def write_file (fs : FS) (relativePath content : String) : Bool × FS :=
  match fs relativePath with
  | some existing =>
      if existing = content then (false, fs)
      else (true, fun p => if p = relativePath then some content else fs p)
  | none => (true, fun p => if p = relativePath then some content else fs p)

/-- Embedding of `FilePlugin.write_files(project, files_content)`: write each file in
order, collecting the paths whose write returned `True`. -/
def write_files (fs : FS) (files : List (String × String)) :
    List String × FS :=
  match files with
  | [] => ([], fs)
  | (p, c) :: rest =>
      match write_file fs p c with
      | (written, fs1) =>
        match write_files fs1 rest with
        | (ps, fs2) => ((if written then p :: ps else ps), fs2)

/-! Embedding of `TransformAddService.add_to_packages`
(`src/meltano/core/transform_add_service.py`) -/

/-- One entry of the `packages` list of `packages.yml`, as the code reads it:
`package.get("git", "")` and `package.get("revision", None)` — an optional
`git` key and an optional `revision` key. -/
structure PackageRef where
  git : Option String
  revision : Option String
deriving DecidableEq, Repr

/-- Python truthiness of an optional string (`if not git_repo:`,
`if revision:`): `None` and the empty string are falsy. -/
def pyTruthy : Option String → Bool
  | none => false
  | some s => !(s = "")

/-- Splitting a character list at every occurrence of the separator
character, keeping empty pieces — the semantics of Python's
`str.split(sep)` for a one-character separator, on the string's
characters. -/
def splitOnChar (sep : Char) : List Char → List (List Char)
  | [] => [[]]
  | x :: xs =>
      match splitOnChar sep xs with
      | [] => if x = sep then [[], []] else [[x]]
      | piece :: rest =>
          if x = sep then [] :: piece :: rest else (x :: piece) :: rest

/-- Python's `url.split("@")` on a string, as a list of strings. -/
def pySplitAt (url : String) : List String :=
  (splitOnChar '@' url.toList).map List.asString

/-- The pip-url parse of `add_to_packages`: when `git_repo.split("@")` has
exactly two parts, they become the repo and the revision; otherwise the url
is kept whole and the revision stays `None`. -/
def parsePipUrl (url : String) : String × Option String :=
  match pySplitAt url with
  | [repo, rev] => (repo, some rev)
  | _ => (url, none)

/-- The `same_ref` test of the loop body: the entry's `git` (default `""`)
equals the parsed repo and its `revision` (default `None`) equals the parsed
revision. -/
def sameRef (pkg : PackageRef) (gitRepo : String) (revision : Option String) :
    Bool :=
  (pkg.git.getD "" = gitRepo) && (pkg.revision = revision)

/-- The error raised by `add_to_packages` when the plugin has no usable
pip url: `ValueError("Missing pip_url for transform plugin ...")`, carrying
the plugin name. -/
inductive TransformAddError where
  | valueError (pluginName : String)
deriving DecidableEq, Repr

/-- Embedding of `TransformAddService.add_to_packages(plugin)` on the parsed view of
`packages.yml` (a missing or empty file parses to the default
`{"packages": []}`, so the file state is its list of package entries):
raise `ValueError` when `plugin.pip_url` is falsy; otherwise split off an
`@revision` suffix, return the list unchanged when some entry is `same_ref`,
and otherwise append `{"git": repo}` plus a `revision` key only when the
revision is truthy, and write the file back. -/
def add_to_packages (pluginName : String) (pipUrl : Option String)
    (packages : List PackageRef) :
    Except TransformAddError (List PackageRef) :=
  if pyTruthy pipUrl = false then
    Except.error (TransformAddError.valueError pluginName)
  else
    let gitRepo := (parsePipUrl (pipUrl.getD "")).1
    let revision := (parsePipUrl (pipUrl.getD "")).2
    if packages.any (fun p => sameRef p gitRepo revision) then
      Except.ok packages
    else
      Except.ok (packages ++
        [⟨some gitRepo, (if pyTruthy revision then revision else none)⟩])

/-! Helper equations for `invoke`, in the three cases of the launch result. -/

/-- If the process starts and exits 0, `invoke` returns normally after the
invocation-start and sink events. -/
theorem invoke_eq_ok (o : DbtOracle) (c : String) (a : List String)
    (b : ProcessBehavior) (h : o c a = LaunchResult.ok b)
    (hz : b.exitcode = 0) :
    invoke o c a = (Except.ok (), Event.invokeStart c a :: sinkEvents b) := by
  unfold invoke
  rw [h]
  simp [hz]

/-- If the process starts and exits non-zero, `invoke` raises the
stage-failure `RunnerError`. -/
theorem invoke_eq_err (o : DbtOracle) (c : String) (a : List String)
    (b : ProcessBehavior) (h : o c a = LaunchResult.ok b)
    (hz : b.exitcode ≠ 0) :
    invoke o c a =
      (Except.error ⟨"`dbt " ++ c ++ "` failed",
        [(PluginType.transformers, b.exitcode)]⟩,
       Event.invokeStart c a :: sinkEvents b) := by
  unfold invoke
  rw [h]
  simp [hz]

/-- If the process cannot be started, `invoke` raises the launch
`RunnerError` and produces no sink events. -/
theorem invoke_eq_fail (o : DbtOracle) (c : String) (a : List String)
    (err : String) (h : o c a = LaunchResult.failure err) :
    invoke o c a =
      (Except.error ⟨"Cannot start dbt: " ++ err, []⟩,
       [Event.invokeStart c a]) := by
  unfold invoke
  rw [h]

/-- C6: For every run, the command of the final stage is "compile" exactly
when the context's dry-run flag is set and "run" otherwise, while the first
two stages ("clean", "deps") are unaffected by the flag. -/
theorem final_stage_depends_on_dry_run (ctx : ELTContext) :
    (stageName ctx 2 = "compile" ↔ ctx.dryRun = true)
  ∧ (stageName ctx 2 = "run" ↔ ctx.dryRun = false)
  ∧ (stageName ctx 0 = "clean" ∧ stageArgs ctx 0 = [])
  ∧ (stageName ctx 1 = "deps" ∧ stageArgs ctx 1 = []) := by
  obtain ⟨d, m⟩ := ctx
  cases d <;> simp [stageName, stageArgs, stages]

/-- C5: If the child process cannot be started, `invoke` fails with the
launch error `RunnerError("Cannot start dbt: " ++ err)` — naming the dbt
command being started and the underlying error — with no exit-code mapping,
and no line is ever written to the log sink. -/
theorem invoke_launch_failure (o : DbtOracle) (cmd : String)
    (args : List String) (err : String)
    (h : o cmd args = LaunchResult.failure err) :
    (invoke o cmd args).1 =
      Except.error ⟨"Cannot start dbt: " ++ err, []⟩
  ∧ (∀ s l, Event.sinkLine s l ∉ (invoke o cmd args).2) := by
  rw [invoke_eq_fail o cmd args err h]
  refine ⟨rfl, ?_⟩
  intro s l hmem
  simp at hmem

/-- A dbt invoker whose executable cannot be started (e.g. not found). -/
def oracleLaunchFail : DbtOracle :=
  fun _ _ => LaunchResult.failure "No such file or directory"

/-- Witness for C5 at the concrete oracle `oracleLaunchFail` and the
`clean` stage. -/
theorem invoke_launch_failure_witness :
    (invoke oracleLaunchFail "clean" []).1 =
      Except.error ⟨"Cannot start dbt: " ++ "No such file or directory", []⟩
  ∧ Event.sinkLine StreamId.stderr "Compilation error"
      ∉ (invoke oracleLaunchFail "clean" []).2 :=
  ⟨(invoke_launch_failure oracleLaunchFail "clean" []
      "No such file or directory" rfl).1,
   (invoke_launch_failure oracleLaunchFail "clean" []
      "No such file or directory" rfl).2 StreamId.stderr "Compilation error"⟩

/-- A dbt invoker whose processes all start and exit with code 2. -/
def oracleExit2 : DbtOracle :=
  fun _ _ => LaunchResult.ok ⟨[], [], 2⟩

/-- C3 counterexample: `DbtRunner.invoke` does NOT return a non-zero exit
code as data to its caller — on a process that starts successfully and exits
2, `invoke` itself raises `RunnerError`, so exit-code interpretation is not
left to `run`. -/
theorem invoke_raises_on_nonzero_exit :
    (invoke oracleExit2 "run" []).1 ≠ Except.ok ()
  ∧ (invoke oracleExit2 "run" []).1 =
      Except.error ⟨"`dbt run` failed", [(PluginType.transformers, 2)]⟩ := by
  have he : (invoke oracleExit2 "run" []).1 =
      Except.error ⟨"`dbt run` failed", [(PluginType.transformers, 2)]⟩ := rfl
  refine ⟨?_, he⟩
  rw [he]
  exact fun h => Except.noConfusion h

/-- C3 amended: `DbtRunner.invoke` itself interprets the exit code: for every
process that starts successfully, `invoke` returns normally exactly when the
exit code is 0, and on a non-zero exit it raises
`RunnerError` naming the failed dbt command with the exit-code mapping
`{TRANSFORMERS: exitcode}` — the caller `run` never inspects exit codes. -/
theorem invoke_interprets_exitcode (o : DbtOracle) (cmd : String)
    (args : List String) (b : ProcessBehavior)
    (h : o cmd args = LaunchResult.ok b) :
    ((invoke o cmd args).1 = Except.ok () ↔ b.exitcode = 0)
  ∧ (b.exitcode ≠ 0 →
      (invoke o cmd args).1 =
        Except.error ⟨"`dbt " ++ cmd ++ "` failed",
                      [(PluginType.transformers, b.exitcode)]⟩) := by
  by_cases hz : b.exitcode = 0
  · rw [invoke_eq_ok o cmd args b h hz]
    simp [hz]
  · rw [invoke_eq_err o cmd args b h hz]
    constructor
    · constructor
      · intro hcontra
        exact absurd hcontra (fun hc => Except.noConfusion hc)
      · intro hc
        exact absurd hc hz
    · intro _
      rfl

/-- Witness for C3's amended theorem at the concrete oracle `oracleExit2`. -/
theorem invoke_interprets_exitcode_witness :
    ((invoke oracleExit2 "run" []).1 = Except.ok () ↔ (2 : Int) = 0)
  ∧ ((2 : Int) ≠ 0 →
      (invoke oracleExit2 "run" []).1 =
        Except.error ⟨"`dbt " ++ "run" ++ "` failed",
                      [(PluginType.transformers, 2)]⟩) :=
  invoke_interprets_exitcode oracleExit2 "run" [] ⟨[], [], 2⟩ rfl

/-- C1: If stage `k` (0-indexed, `k < 3`) of the sequence exits non-zero and
all prior stages exit 0, `run` fails with the `RunnerError` naming stage
`k`'s command and mapping the transformer role to that exit code, and the
stages constructed and started are exactly the first `k + 1` — no stage
after `k` is ever constructed or started. -/
theorem run_fails_at_first_nonzero_stage (ctx : ELTContext) (o : DbtOracle)
    (k : Nat) (hk : k < 3) (b : ProcessBehavior)
    (hprev : ∀ j, j < k → ∃ bj,
      o (stageName ctx j) (stageArgs ctx j) = LaunchResult.ok bj
        ∧ bj.exitcode = 0)
    (hcur : o (stageName ctx k) (stageArgs ctx k) = LaunchResult.ok b)
    (hnz : b.exitcode ≠ 0) :
    (run ctx o).1 =
      Except.error ⟨"`dbt " ++ stageName ctx k ++ "` failed",
        [(PluginType.transformers, b.exitcode)]⟩
  ∧ invokeStarts (run ctx o).2 = (stages ctx).take (k + 1) := by
  interval_cases k
  · have hc : o "clean" [] = LaunchResult.ok b := by
      simpa [stageName, stageArgs, stages] using hcur
    unfold run runBody
    rw [invoke_eq_err o "clean" [] b hc hnz]
    simp [stages, stageName]
  · obtain ⟨b1, h1, z1⟩ := hprev 0 (by norm_num)
    have h1c : o "clean" [] = LaunchResult.ok b1 := by
      simpa [stageName, stageArgs, stages] using h1
    have hc : o "deps" [] = LaunchResult.ok b := by
      simpa [stageName, stageArgs, stages] using hcur
    unfold run runBody
    rw [invoke_eq_ok o "clean" [] b1 h1c z1, invoke_eq_err o "deps" [] b hc hnz]
    simp [stages, stageName]
  · obtain ⟨b1, h1, z1⟩ := hprev 0 (by norm_num)
    obtain ⟨b2, h2, z2⟩ := hprev 1 (by norm_num)
    have h1c : o "clean" [] = LaunchResult.ok b1 := by
      simpa [stageName, stageArgs, stages] using h1
    have h2c : o "deps" [] = LaunchResult.ok b2 := by
      simpa [stageName, stageArgs, stages] using h2
    have hc : o (if ctx.dryRun then "compile" else "run")
        ["--models", ctx.modelsConfig] = LaunchResult.ok b := by
      simpa [stageName, stageArgs, stages] using hcur
    unfold run runBody
    rw [invoke_eq_ok o "clean" [] b1 h1c z1, invoke_eq_ok o "deps" [] b2 h2c z2,
        invoke_eq_err o _ _ b hc hnz]
    simp [stages, stageName]

/-- A dbt invoker where `clean` and `deps` exit 0 and `run` exits 1 after
writing a line to stderr. -/
def oracleFailRun : DbtOracle := fun cmd _ =>
  if cmd = "run" then LaunchResult.ok ⟨[], ["Compilation error"], 1⟩
  else LaunchResult.ok ⟨[], [], 0⟩

/-- Witness for C1: with `clean` and `deps` exiting 0 and `run` exiting 1,
`run` fails naming stage 2 and only the three stages up to it started. -/
theorem run_fails_at_first_nonzero_stage_witness :
    (run ⟨false, "m"⟩ oracleFailRun).1 =
      Except.error ⟨"`dbt " ++ stageName ⟨false, "m"⟩ 2 ++ "` failed",
        [(PluginType.transformers, 1)]⟩
  ∧ invokeStarts (run ⟨false, "m"⟩ oracleFailRun).2 =
      (stages ⟨false, "m"⟩).take (2 + 1) :=
  run_fails_at_first_nonzero_stage ⟨false, "m"⟩ oracleFailRun 2 (by norm_num)
    ⟨[], ["Compilation error"], 1⟩
    (by
      intro j hj
      interval_cases j
      · exact ⟨⟨[], [], 0⟩, rfl, rfl⟩
      · exact ⟨⟨[], [], 0⟩, rfl, rfl⟩)
    rfl
    (by norm_num)

/-- C4: If every stage's process exits 0, `run` returns without error and
the stages constructed and started are exactly the stage sequence `clean`,
`deps`, `run`/`compile`, each exactly once, in order. -/
theorem run_all_stages_succeed (ctx : ELTContext) (o : DbtOracle)
    (b1 b2 b3 : ProcessBehavior)
    (h1 : o "clean" [] = LaunchResult.ok b1) (z1 : b1.exitcode = 0)
    (h2 : o "deps" [] = LaunchResult.ok b2) (z2 : b2.exitcode = 0)
    (h3 : o (if ctx.dryRun then "compile" else "run")
        ["--models", ctx.modelsConfig] = LaunchResult.ok b3)
    (z3 : b3.exitcode = 0) :
    (run ctx o).1 = Except.ok ()
  ∧ invokeStarts (run ctx o).2 = stages ctx := by
  unfold run runBody
  rw [invoke_eq_ok o "clean" [] b1 h1 z1, invoke_eq_ok o "deps" [] b2 h2 z2,
      invoke_eq_ok o _ _ b3 h3 z3]
  simp [stages]

/-- A dbt invoker where every process starts and exits 0 with no output. -/
def oracleAllOk : DbtOracle := fun _ _ => LaunchResult.ok ⟨[], [], 0⟩

/-- Witness for C4 at the concrete all-succeeding oracle `oracleAllOk`, in
dry-run mode. -/
theorem run_all_stages_succeed_witness :
    (run ⟨true, "m"⟩ oracleAllOk).1 = Except.ok ()
  ∧ invokeStarts (run ⟨true, "m"⟩ oracleAllOk).2 = stages ⟨true, "m"⟩ :=
  run_all_stages_succeed ⟨true, "m"⟩ oracleAllOk
    ⟨[], [], 0⟩ ⟨[], [], 0⟩ ⟨[], [], 0⟩ rfl rfl rfl rfl rfl rfl

/-- No `invoke` call produces a prepare acquisition or release event: those
events come only from the `with dbt.prepared(...)` block of `run`. -/
theorem invoke_no_prepare (o : DbtOracle) (c : String) (a : List String) :
    Event.prepareAcquire ∉ (invoke o c a).2
  ∧ Event.prepareRelease ∉ (invoke o c a).2 := by
  unfold invoke
  cases h : o c a with
  | failure err => simp
  | ok b =>
    by_cases hz : b.exitcode = 0 <;> simp [hz, sinkEvents]

/-- The body of the `with` block produces no prepare events of its own. -/
theorem runBody_no_prepare (ctx : ELTContext) (o : DbtOracle) :
    Event.prepareAcquire ∉ (runBody ctx o).2
  ∧ Event.prepareRelease ∉ (runBody ctx o).2 := by
  have n1 := invoke_no_prepare o "clean" []
  have n2 := invoke_no_prepare o "deps" []
  have n3 := invoke_no_prepare o (if ctx.dryRun then "compile" else "run")
      ["--models", ctx.modelsConfig]
  unfold runBody
  rcases h1 : invoke o "clean" [] with ⟨r1, ev1⟩
  rw [h1] at n1
  cases r1 with
  | error e => simpa using n1
  | ok u =>
    rcases h2 : invoke o "deps" [] with ⟨r2, ev2⟩
    rw [h2] at n2
    cases r2 with
    | error e =>
      simp only [List.mem_append]
      constructor
      · intro hmem
        rcases hmem with hmem | hmem
        · exact n1.1 hmem
        · exact n2.1 hmem
      · intro hmem
        rcases hmem with hmem | hmem
        · exact n1.2 hmem
        · exact n2.2 hmem
    | ok u2 =>
      rcases h3 : invoke o (if ctx.dryRun then "compile" else "run")
          ["--models", ctx.modelsConfig] with ⟨r3, ev3⟩
      rw [h3] at n3
      simp only [List.mem_append]
      constructor
      · intro hmem
        rcases hmem with (hmem | hmem) | hmem
        · exact n1.1 hmem
        · exact n2.1 hmem
        · exact n3.1 hmem
      · intro hmem
        rcases hmem with (hmem | hmem) | hmem
        · exact n1.2 hmem
        · exact n2.2 hmem
        · exact n3.2 hmem

/-- C7: Every `run` trace — on success, on a launch error, and on a stage's
non-zero exit alike — is exactly one prepare acquisition, then the stage
activity, then one prepare release: the resource is acquired before the
first stage starts, every stage start happens inside the bracket, and the
release is the final event on every exit path. -/
theorem run_prepare_bracket (ctx : ELTContext) (o : DbtOracle) :
    ∃ mid, (run ctx o).2 = Event.prepareAcquire :: (mid ++ [Event.prepareRelease])
      ∧ Event.prepareAcquire ∉ mid
      ∧ Event.prepareRelease ∉ mid
      ∧ invokeStarts mid = invokeStarts (run ctx o).2 := by
  refine ⟨(runBody ctx o).2, rfl, (runBody_no_prepare ctx o).1,
    (runBody_no_prepare ctx o).2, ?_⟩
  simp [run]

/-- The oracle makes every stage of the sequence start and exit 0. -/
def AllSucceed (ctx : ELTContext) (o : DbtOracle) : Prop :=
  ∀ k, k < 3 → ∃ b,
    o (stageName ctx k) (stageArgs ctx k) = LaunchResult.ok b
      ∧ b.exitcode = 0

/-- An all-succeeding run returns without error. -/
theorem run_ok_of_allSucceed (ctx : ELTContext) (o : DbtOracle)
    (h : AllSucceed ctx o) : (run ctx o).1 = Except.ok () := by
  obtain ⟨b1, h1, z1⟩ := h 0 (by norm_num)
  obtain ⟨b2, h2, z2⟩ := h 1 (by norm_num)
  obtain ⟨b3, h3, z3⟩ := h 2 (by norm_num)
  have h1c : o "clean" [] = LaunchResult.ok b1 := by
    simpa [stageName, stageArgs, stages] using h1
  have h2c : o "deps" [] = LaunchResult.ok b2 := by
    simpa [stageName, stageArgs, stages] using h2
  have h3c : o (if ctx.dryRun then "compile" else "run")
      ["--models", ctx.modelsConfig] = LaunchResult.ok b3 := by
    simpa [stageName, stageArgs, stages] using h3
  unfold run runBody
  rw [invoke_eq_ok o "clean" [] b1 h1c z1, invoke_eq_ok o "deps" [] b2 h2c z2,
      invoke_eq_ok o _ _ b3 h3c z3]

/-- C8: Calling `run` twice on the same runner with all-succeeding stages
yields two independent successful outcomes: the runner object is unchanged
by the first call, so the second call's entire outcome — result and trace —
is exactly what a fresh call would produce, unaffected by the first run. -/
theorem run_twice_independent (r : DbtRunner) (o1 o2 : DbtOracle)
    (h1 : AllSucceed r.context o1) (h2 : AllSucceed r.context o2) :
    ((r.runM o1).1.1 = Except.ok ())
  ∧ (((r.runM o1).2.runM o2).1.1 = Except.ok ())
  ∧ ((r.runM o1).2.runM o2 = r.runM o2)
  ∧ ((r.runM o1).2 = r) := by
  refine ⟨?_, ?_, rfl, rfl⟩
  · exact run_ok_of_allSucceed r.context o1 h1
  · exact run_ok_of_allSucceed r.context o2 h2

/-- Witness for C8 at a concrete runner and the all-succeeding oracle. -/
theorem run_twice_independent_witness :
    (((⟨⟨false, "m"⟩⟩ : DbtRunner).runM oracleAllOk).1.1 = Except.ok ())
  ∧ ((((⟨⟨false, "m"⟩⟩ : DbtRunner).runM oracleAllOk).2.runM oracleAllOk).1.1 =
      Except.ok ())
  ∧ (((⟨⟨false, "m"⟩⟩ : DbtRunner).runM oracleAllOk).2.runM oracleAllOk =
      (⟨⟨false, "m"⟩⟩ : DbtRunner).runM oracleAllOk)
  ∧ (((⟨⟨false, "m"⟩⟩ : DbtRunner).runM oracleAllOk).2 =
      (⟨⟨false, "m"⟩⟩ : DbtRunner)) :=
  run_twice_independent ⟨⟨false, "m"⟩⟩ oracleAllOk oracleAllOk
    (fun _ _ => ⟨⟨[], [], 0⟩, rfl, rfl⟩)
    (fun _ _ => ⟨⟨[], [], 0⟩, rfl, rfl⟩)

/-- C2: In every reachable state of the output-drain coordination, if the
exit outcome has been reported to the caller then the stdout drain, the
stderr drain and the process wait have all completed — the outcome is never
visible after only one (or two) of the three sub-tasks finish, whatever the
interleaving. -/
theorem exit_outcome_after_barrier (s : SupState) (h : SupReachable s) :
    s.reported = true →
      s.stdoutDone = true ∧ s.stderrDone = true ∧ s.waitDone = true := by
  unfold SupReachable at h
  induction h with
  | refl =>
    intro hr
    simp [SupState.init] at hr
  | tail hst step ih =>
    intro hr
    cases step with
    | finishStdout => exact ⟨rfl, (ih hr).2.1, (ih hr).2.2⟩
    | finishStderr => exact ⟨(ih hr).1, rfl, (ih hr).2.2⟩
    | finishWait => exact ⟨(ih hr).1, (ih hr).2.1, rfl⟩
    | report h1 h2 h3 => exact ⟨h1, h2, h3⟩

/-- The state after all three sub-tasks finished and the outcome was
reported. -/
def supDone : SupState := ⟨true, true, true, true⟩

/-- Witness for C2: the fully-completed reported state is reachable, and the
theorem applies to it. -/
theorem exit_outcome_after_barrier_witness :
    SupReachable supDone
  ∧ (supDone.stdoutDone = true ∧ supDone.stderrDone = true
      ∧ supDone.waitDone = true) := by
  have st1 : SupStep SupState.init ⟨true, false, false, false⟩ :=
    SupStep.finishStdout SupState.init
  have st2 : SupStep ⟨true, false, false, false⟩ ⟨true, true, false, false⟩ :=
    SupStep.finishStderr ⟨true, false, false, false⟩
  have st3 : SupStep ⟨true, true, false, false⟩ ⟨true, true, true, false⟩ :=
    SupStep.finishWait ⟨true, true, false, false⟩
  have st4 : SupStep ⟨true, true, true, false⟩ supDone :=
    SupStep.report ⟨true, true, true, false⟩ rfl rfl rfl
  have hreach : SupReachable supDone :=
    Relation.ReflTransGen.tail
      (Relation.ReflTransGen.tail
        (Relation.ReflTransGen.tail (Relation.ReflTransGen.single st1) st2)
        st3)
      st4
  exact ⟨hreach, exit_outcome_after_barrier supDone hreach rfl⟩

/-- C9: `write_file` leaves the filesystem unchanged and returns `False`
when the target file already holds exactly the given content, and otherwise
returns `True` and writes the content there, touching no other path; hence
writing the same content a second time is a no-op returning `False`. -/
theorem write_file_spec (fs : FS) (p c : String) :
    (fs p = some c → write_file fs p c = (false, fs))
  ∧ (fs p ≠ some c →
      (write_file fs p c).1 = true
    ∧ (write_file fs p c).2 p = some c
    ∧ ∀ q, q ≠ p → (write_file fs p c).2 q = fs q)
  ∧ write_file (write_file fs p c).2 p c = (false, (write_file fs p c).2) := by
  unfold write_file
  cases hfs : fs p with
  | none =>
    refine ⟨fun h => Option.noConfusion h, fun _ => ⟨rfl, by simp, ?_⟩, by simp⟩
    intro q hq
    simp [hq]
  | some existing =>
    by_cases hec : existing = c
    · subst hec
      refine ⟨fun _ => by simp, fun h => absurd rfl h, ?_⟩
      simp [hfs]
    · refine ⟨fun h => ?_, fun _ => ⟨by simp [hec], by simp [hec], ?_⟩, ?_⟩
      · injection h with h
        exact absurd h hec
      · intro q hq
        simp [hec, hq]
      · simp [hec]

/-- The empty project filesystem. -/
def fsEmpty : FS := fun _ => none

/-- A project filesystem holding one file. -/
def fsOne : FS :=
  fun p => if p = "transform/dbt_project.yml" then some "config" else none

/-- Witness for C9: an existing identical file is left alone with `False`,
a missing file is written with `True`, and the immediate rewrite is a
no-op. -/
theorem write_file_spec_witness :
    write_file fsOne "transform/dbt_project.yml" "config" = (false, fsOne)
  ∧ (write_file fsEmpty "transform/dbt_project.yml" "config").1 = true
  ∧ write_file (write_file fsEmpty "transform/dbt_project.yml" "config").2
      "transform/dbt_project.yml" "config"
      = (false, (write_file fsEmpty "transform/dbt_project.yml" "config").2) :=
  ⟨(write_file_spec fsOne "transform/dbt_project.yml" "config").1
      (by simp [fsOne]),
   ((write_file_spec fsEmpty "transform/dbt_project.yml" "config").2.1
      (by simp [fsEmpty])).1,
   (write_file_spec fsEmpty "transform/dbt_project.yml" "config").2.2⟩

/-- C10 counterexample: `add_to_packages` is NOT idempotent for every
plugin: with `pip_url = "repo@"` the parsed revision is the empty string,
the appended entry drops its falsy revision key, so a second call fails to
recognize the entry it just added and appends a duplicate — two calls do
not yield the same file contents as one. -/
theorem add_to_packages_not_idempotent :
    add_to_packages "dbt-pkg" (some "repo@") [] =
      Except.ok [⟨some "repo", none⟩]
  ∧ add_to_packages "dbt-pkg" (some "repo@") [⟨some "repo", none⟩] =
      Except.ok [⟨some "repo", none⟩, ⟨some "repo", none⟩] := by
  constructor
  · rfl
  · rfl

/-- C10 amended: when the plugin's pip url does not parse to an empty
revision (it is not of the form `x@`), `add_to_packages` is idempotent: a
file already listing an entry with the same git url and revision is returned
unchanged, a second call after any first call leaves the first call's result
as is, and a falsy pip url (`None` or `""`) raises `ValueError` naming the
plugin. -/
theorem add_to_packages_spec (name u g : String) (r : Option String)
    (l : List PackageRef)
    (hu : pyTruthy (some u) = true)
    (hp : parsePipUrl u = (g, r))
    (hrev : r ≠ some "") :
    (l.any (fun p => sameRef p g r) = true →
      add_to_packages name (some u) l = Except.ok l)
  ∧ (∀ l2, add_to_packages name (some u) l = Except.ok l2 →
      add_to_packages name (some u) l2 = Except.ok l2)
  ∧ add_to_packages name none l =
      Except.error (TransformAddError.valueError name)
  ∧ add_to_packages name (some "") l =
      Except.error (TransformAddError.valueError name) := by
  have hstep : ∀ m : List PackageRef, add_to_packages name (some u) m =
      (if m.any (fun p => sameRef p g r) then Except.ok m
       else Except.ok (m ++ [⟨some g, if pyTruthy r then r else none⟩])) := by
    intro m
    simp only [add_to_packages, Option.getD_some, hp, hu]
    norm_num
  refine ⟨?_, ?_, rfl, rfl⟩
  · intro ha
    rw [hstep l, if_pos ha]
  · intro l2 h2
    rw [hstep l] at h2
    by_cases ha : l.any (fun p => sameRef p g r) = true
    · rw [if_pos ha] at h2
      injection h2 with h2
      subst h2
      rw [hstep l, if_pos ha]
    · rw [if_neg ha] at h2
      injection h2 with h2
      subst h2
      have hnorm : (if pyTruthy r = true then r else none) = r := by
        cases r with
        | none => simp [pyTruthy]
        | some s =>
          have hs : ¬(s = "") := fun hs => hrev (by rw [hs])
          simp [pyTruthy, hs]
      have hself : sameRef ⟨some g, if pyTruthy r = true then r else none⟩ g r
          = true := by
        simp [sameRef, hnorm, Option.getD]
      have ha2 : ((l ++ [(⟨some g, if pyTruthy r = true then r else none⟩ :
          PackageRef)]).any (fun p => sameRef p g r)) = true := by
        rw [List.any_append]
        simp [hself]
      rw [hstep, if_pos ha2]

/-- Witness for C10's amended theorem: adding `repo@v1` again after a first
add keeps the singleton entry, a matching entry short-circuits, and falsy
pip urls raise. -/
theorem add_to_packages_spec_witness :
    ([(⟨some "repo", some "v1"⟩ : PackageRef)].any
        (fun p => sameRef p "repo" (some "v1")) = true →
      add_to_packages "dbt-pkg" (some "repo@v1")
        [⟨some "repo", some "v1"⟩] = Except.ok [⟨some "repo", some "v1"⟩])
  ∧ (add_to_packages "dbt-pkg" (some "repo@v1")
        [⟨some "repo", some "v1"⟩] = Except.ok [⟨some "repo", some "v1"⟩])
  ∧ add_to_packages "dbt-pkg" none [⟨some "repo", some "v1"⟩] =
      Except.error (TransformAddError.valueError "dbt-pkg")
  ∧ add_to_packages "dbt-pkg" (some "") [⟨some "repo", some "v1"⟩] =
      Except.error (TransformAddError.valueError "dbt-pkg") := by
  have h := add_to_packages_spec "dbt-pkg" "repo@v1" "repo" (some "v1")
    [⟨some "repo", some "v1"⟩] rfl rfl (by simp)
  exact ⟨h.1, h.1 (by rfl), h.2.2.1, h.2.2.2⟩
